import Mathlib

/-!
Shallow embedding of the speech acquisition and recognition pipeline of the
tldr_buddy repository (src/speech_recognizer.py, src/audio_processor.py,
src/speech_pipeline.py), with theorems settling the spec claims about it.

Conventions of the embedding:
* Python floats are modelled as rationals (ℚ); the spec's numeric laws are
  stated "within floating tolerance", and every constant involved is exactly
  representable, so ideal arithmetic is the intended reading.
* Byte strings are modelled as `List Nat`; Python's truthiness test on a
  byte string (`if data:`) is `¬ data.isEmpty`.
* Fallible calls are modelled by `Except` values or by boolean oracles that
  say whether a given external call succeeds; `try/except` blocks are
  translated branch by branch, in source order.
-/

/-- Byte strings (Python `bytes`). -/
abbrev ByteData : Type := List Nat

/-! ## UserLanguageCache (src/speech_recognizer.py lines 51-146)

The class keeps a per-user record `{'language': ..., 'confidence': ...}` in a
Redis tier with an in-memory fallback; both tiers apply the same logic to
whichever record is found, so the embedding takes the record found for the
user (`Option LangData`) as input.  The `last_updated` timestamp is carried
by the source but never read by the logic under claim, so it is omitted. -/

/-- A stored language preference record. -/
structure LangData where
  language : String
  confidence : ℚ
deriving DecidableEq

/-- Embeds `UserLanguageCache.get_user_language` (lines 59-85): return the
stored language only when the stored confidence is strictly above 0.7
(`lang_data.get('confidence', 0) > 0.7`), else `None`. -/
def UserLanguageCache.get_user_language (stored : Option LangData) : Option String :=
  match stored with
  | some d => if 7/10 < d.confidence then some d.language else none
  | none => none

/-- Embeds `UserLanguageCache.update_user_language` (lines 87-146): with an
existing record of the same language the new confidence is
`min(1.0, existing['confidence'] * 0.9 + confidence * 0.1)`; with a
different language it is `confidence * 0.5`; for a new user it is
`confidence * 0.8`.  The function returns the record that the source stores
back into both cache tiers. -/
def UserLanguageCache.update_user_language (existing : Option LangData)
    (detected_language : String) (confidence : ℚ) : LangData :=
  match existing with
  | some d =>
    if d.language = detected_language then
      { language := detected_language
        confidence := min 1 (d.confidence * (9/10) + confidence * (1/10)) }
    else
      { language := detected_language, confidence := confidence * (1/2) }
  | none =>
    { language := detected_language, confidence := confidence * (8/10) }

/-- Stored confidences stay in [0, 1]: every record `update_user_language`
writes has confidence in [0, 1] whenever the observation confidence is.
This is the store invariant that justifies assuming `0 ≤ c ≤ 1` for an
existing record. -/
theorem update_user_language_confidence_mem_unitInterval
    (existing : Option LangData) (lang : String) (o : ℚ)
    (ho0 : 0 ≤ o) (ho1 : o ≤ 1)
    (hex : ∀ d, existing = some d → 0 ≤ d.confidence ∧ d.confidence ≤ 1) :
    0 ≤ (UserLanguageCache.update_user_language existing lang o).confidence ∧
      (UserLanguageCache.update_user_language existing lang o).confidence ≤ 1 := by
  cases existing with
  | none =>
    simp only [UserLanguageCache.update_user_language]
    constructor <;> nlinarith
  | some d =>
    obtain ⟨hc0, hc1⟩ := hex d rfl
    simp only [UserLanguageCache.update_user_language]
    by_cases h : d.language = lang
    · simp only [h, if_pos rfl]
      constructor
      · exact le_min (by norm_num) (by nlinarith)
      · exact min_le_left _ _
    · rw [if_neg h]
      constructor <;> nlinarith

/-- C3: for every observation with confidence `o ∈ [0,1]` against a stored
preference with confidence `c` (stored confidences lie in [0,1] by the store
invariant), `update_user_language` writes confidence exactly
`0.9*c + 0.1*o` when the languages agree (hence at least `0.9*c`), `0.5*o`
when the stored language disagrees, and `0.8*o` when no preference exists;
in every case the stored language becomes the observed language. -/
theorem C3_update_confidence_rules (d : LangData) (lang : String) (o : ℚ)
    (ho0 : 0 ≤ o) (ho1 : o ≤ 1) (hc0 : 0 ≤ d.confidence) (hc1 : d.confidence ≤ 1) :
    (d.language = lang →
      UserLanguageCache.update_user_language (some d) lang o =
        { language := lang, confidence := d.confidence * (9/10) + o * (1/10) } ∧
      d.confidence * (9/10) ≤
        (UserLanguageCache.update_user_language (some d) lang o).confidence) ∧
    (d.language ≠ lang →
      UserLanguageCache.update_user_language (some d) lang o =
        { language := lang, confidence := o * (1/2) }) ∧
    (UserLanguageCache.update_user_language none lang o =
      { language := lang, confidence := o * (8/10) }) ∧
    (UserLanguageCache.update_user_language (some d) lang o).language = lang := by
  have hmin : min 1 (d.confidence * (9/10) + o * (1/10)) =
      d.confidence * (9/10) + o * (1/10) :=
    min_eq_right (by nlinarith)
  refine ⟨fun h => ⟨?_, ?_⟩, fun h => ?_, rfl, ?_⟩
  · simp only [UserLanguageCache.update_user_language, if_pos h, hmin]
  · simp only [UserLanguageCache.update_user_language, if_pos h, hmin]
    nlinarith
  · simp only [UserLanguageCache.update_user_language, if_neg h]
  · simp only [UserLanguageCache.update_user_language]
    by_cases h : d.language = lang <;> simp [h]

/-- Witness for C3 at concrete inputs: a same-language observation
(`c = 1/2`, `o = 1`) blends to `0.9*(1/2) + 0.1*1`, a different-language
record demotes to `0.5*1`, and a new user starts at `0.8*1`. -/
theorem C3_update_confidence_rules_witness :
    (UserLanguageCache.update_user_language (some ⟨"ru", 1/2⟩) "ru" 1 =
      { language := "ru", confidence := (1/2 : ℚ) * (9/10) + 1 * (1/10) }) ∧
    (UserLanguageCache.update_user_language (some ⟨"en", 1/2⟩) "ru" 1 =
      { language := "ru", confidence := (1 : ℚ) * (1/2) }) ∧
    (UserLanguageCache.update_user_language none "ru" 1 =
      { language := "ru", confidence := (1 : ℚ) * (8/10) }) :=
  ⟨((C3_update_confidence_rules ⟨"ru", 1/2⟩ "ru" 1 (by norm_num) (by norm_num)
      (by norm_num) (by norm_num)).1 rfl).1,
   (C3_update_confidence_rules ⟨"en", 1/2⟩ "ru" 1 (by norm_num) (by norm_num)
      (by norm_num) (by norm_num)).2.1 (by decide),
   (C3_update_confidence_rules ⟨"en", 1/2⟩ "ru" 1 (by norm_num) (by norm_num)
      (by norm_num) (by norm_num)).2.2.1⟩

/-- C4: for a user with a stored preference, `get_user_language` returns the
stored language exactly when the stored confidence is strictly greater than
0.7, and returns `none` when the confidence is at most 0.7 (so it is absent
at exactly 0.7). -/
theorem C4_hint_threshold (d : LangData) :
    (UserLanguageCache.get_user_language (some d) = some d.language ↔
      7/10 < d.confidence) ∧
    (d.confidence ≤ 7/10 → UserLanguageCache.get_user_language (some d) = none) := by
  constructor
  · constructor
    · intro h
      by_contra hc
      simp only [UserLanguageCache.get_user_language, if_neg hc] at h
      exact Option.noConfusion h
    · intro h
      simp only [UserLanguageCache.get_user_language, if_pos h]
  · intro h
    simp only [UserLanguageCache.get_user_language, if_neg (not_lt.mpr h)]

/-- Witness for C4 at the boundary: confidence exactly 0.7 yields no hint,
while confidence 0.70001 yields the stored language. -/
theorem C4_hint_threshold_witness :
    UserLanguageCache.get_user_language (some ⟨"ru", 7/10⟩) = none ∧
    UserLanguageCache.get_user_language (some ⟨"ru", 70001/100000⟩) = some "ru" :=
  ⟨(C4_hint_threshold ⟨"ru", 7/10⟩).2 (by norm_num),
   (C4_hint_threshold ⟨"ru", 70001/100000⟩).1.mpr (by norm_num)⟩

/-! ## FormatOptimizer (src/audio_processor.py lines 38-130) -/

/-- Metadata container for audio file analysis (`FileMetadata`, lines 26-35).
The `file_path` field is carried by the source but unused by the logic under
claim, so it is omitted. -/
structure FileMetadata where
  file_id : String
  size : Int
  format : String
  codec : Option String
  is_optimal : Bool
  estimated_duration : ℚ
deriving DecidableEq

/-- Association-list lookup mirroring a Python dict read (first, and only,
binding for a key wins; the insert below keeps keys unique). -/
def assocFind {α : Type} (k : String) : List (String × α) → Option α
  | [] => none
  | (k', v) :: rest => if k' = k then some v else assocFind k rest

/-- Association-list write mirroring a Python dict assignment: replace the
value when the key is present (length unchanged), append otherwise. -/
def assocInsert {α : Type} (k : String) (v : α) : List (String × α) → List (String × α)
  | [] => [(k, v)]
  | (k', v') :: rest =>
    if k' = k then (k, v) :: rest else (k', v') :: assocInsert k v rest

/-- The format table `FormatOptimizer.TELEGRAM_NATIVE_FORMATS` (lines 41-48):
extension ↦ (codec, optimal). -/
def FormatOptimizer.TELEGRAM_NATIVE_FORMATS : List (String × Option String × Bool) :=
  [("ogg", some "opus", true),
   ("oga", some "opus", true),
   ("mp4", some "aac", false),
   ("mp3", some "mp3", false),
   ("wav", some "pcm", false),
   ("m4a", some "aac", false)]

/-- Result of format detection: the `format`/`codec`/`optimal` fields of the
dict built by `_detect_format_from_path`. -/
structure FormatInfo where
  format : String
  codec : Option String
  optimal : Bool
deriving DecidableEq

/-- Embeds `FormatOptimizer._detect_format_from_path` (lines 92-113) applied
to the lowercased, dot-stripped extension of the Telegram file path (the
source extracts it with `Path(file_path).suffix.lower().lstrip('.')`; the
extraction itself is not modelled, the claims quantify over extensions).
A table hit keeps the table's codec and optimal flag; a miss yields no codec
and `optimal = False`; the `format` field is `extension or 'unknown'`. -/
def FormatOptimizer._detect_format_from_path (extension : String) : FormatInfo :=
  let fmt := if extension = "" then "unknown" else extension
  match assocFind extension FormatOptimizer.TELEGRAM_NATIVE_FORMATS with
  | some (codec, optimal) => { format := fmt, codec := codec, optimal := optimal }
  | none => { format := fmt, codec := none, optimal := false }

/-- Embeds `FormatOptimizer._estimate_duration` (lines 115-130): a
non-positive size returns 0.0 at once; otherwise the size is divided by the
format's assumed bitrate in bytes per second (ogg 64 kbps, mp3 128 kbps,
mp4 96 kbps, wav 1411 kbps, default 96 kbps) and the result clamped to
`[0.1, 600]` by `max(0.1, min(estimated, 600.0))`. -/
def FormatOptimizer._estimate_duration (file_size : Int) (format_type : String) : ℚ :=
  if file_size ≤ 0 then 0
  else
    let fs : ℚ := (file_size : ℚ)
    let estimated : ℚ :=
      if format_type = "ogg" then fs / (64 * 1024 / 8)
      else if format_type = "mp3" then fs / (128 * 1024 / 8)
      else if format_type = "mp4" then fs / (96 * 1024 / 8)
      else if format_type = "wav" then fs / (1411 * 1024 / 8)
      else fs / (96 * 1024 / 8)
    max (1/10) (min estimated 600)

/-- Embeds `FormatOptimizer.analyze_file_metadata` (lines 53-90).  The
Telegram lookup `bot.get_file` is modelled by
`resolve : Option (String × Int)` carrying the path extension and the file
size; `none` covers a lookup exception or a missing/empty `file_path`, and a
size of 0 is falsy in `if not tg_file.file_size`, raising a `ValueError`
that the enclosing handler also turns into the fallback.  Every failure is
caught and the fallback metadata (size 0, format `'unknown'`, no codec, not
optimal, duration 0.0 from the dataclass default) is returned instead of
raising. -/
def FormatOptimizer.analyze_file_metadata (file_id : String)
    (resolve : Option (String × Int)) : FileMetadata :=
  match resolve with
  | none =>
    { file_id := file_id, size := 0, format := "unknown", codec := none,
      is_optimal := false, estimated_duration := 0 }
  | some (ext, size) =>
    if size = 0 then
      { file_id := file_id, size := 0, format := "unknown", codec := none,
        is_optimal := false, estimated_duration := 0 }
    else
      let fi := FormatOptimizer._detect_format_from_path ext
      { file_id := file_id, size := size, format := fi.format, codec := fi.codec,
        is_optimal := fi.optimal,
        estimated_duration := FormatOptimizer._estimate_duration size fi.format }

/-! ## CacheManager (src/audio_processor.py lines 133-179) -/

/-- The Redis tier: a client that either works over its key-value store or
raises on every call (`failing = true` models the `except Exception`
branches). -/
structure RedisTier where
  failing : Bool
  store : List (String × ByteData)
deriving DecidableEq

/-- Cache state of a `CacheManager`: an optional Redis client and the
in-process fallback dict `memory_cache`. -/
structure Cache where
  redis : Option RedisTier
  memStore : List (String × ByteData)
deriving DecidableEq

/-- True when a Redis client is configured and its calls succeed. -/
def Cache.redisWritable (c : Cache) : Bool :=
  match c.redis with
  | some r => !r.failing
  | none => false

/-- Embeds `CacheManager.get` (lines 141-160): when a Redis client exists
and does not raise, a truthy (`if cached_data:`) hit is returned; a Redis
exception is logged and swallowed; otherwise the in-process dict is
consulted (with no truthiness check: `if file_id in self.memory_cache:
return ...`), and `None` ends the lookup. -/
def CacheManager.get (c : Cache) (file_id : String) : Option ByteData :=
  let fromRedis : Option ByteData :=
    match c.redis with
    | none => none
    | some r =>
      if r.failing then none
      else
        match assocFind file_id r.store with
        | some d => if d.isEmpty then none else some d
        | none => none
  match fromRedis with
  | some d => some d
  | none => assocFind file_id c.memStore

/-- Embeds `CacheManager.set` (lines 162-179): a successful Redis `setex`
returns at once; a Redis exception is swallowed and, like the no-Redis case,
falls through to the in-process dict, which only admits the write while it
holds fewer than 10 entries (`if len(self.memory_cache) < 10:`). -/
def CacheManager.set (c : Cache) (file_id : String) (data : ByteData) : Cache :=
  match c.redis with
  | some r =>
    if !r.failing then
      { c with redis := some { r with store := assocInsert file_id data r.store } }
    else if c.memStore.length < 10 then
      { c with memStore := assocInsert file_id data c.memStore }
    else c
  | none =>
    if c.memStore.length < 10 then
      { c with memStore := assocInsert file_id data c.memStore }
    else c

/-! ## MemoryOptimizedProcessor.stream_convert (src/audio_processor.py lines 214-251)

The call chain is: `bot.get_file` (may raise, or yield no `file_path`);
create a named temporary file with `delete=False`; `bot.download_file` into
it (may raise); read the file back (may raise); then
`os.unlink(temp_input_path)` wrapped in `try/except OSError: pass`.  There
is no `finally`: the unlink is reached only when download and read both
succeed.  Each external call is modelled by a boolean saying whether it
succeeds. -/

/-- Success/failure of each external call made by `stream_convert`. -/
structure ConvCalls where
  getFileOk : Bool
  downloadOk : Bool
  readOk : Bool
  unlinkOk : Bool
deriving DecidableEq

/-- Observable outcome of one `stream_convert` run: whether it returned
normally (`ok`) or propagated an exception, whether the temporary file was
created, and whether it was deleted by the time the call exited. -/
structure ConvOutcome where
  ok : Bool
  tempCreated : Bool
  tempDeleted : Bool
deriving DecidableEq

/-- Embeds `MemoryOptimizedProcessor.stream_convert` (lines 214-251), path
by path.  A `get_file` failure raises before the temporary file exists.
After the file is created with `delete=False`, a download or read failure
propagates (re-raised by the outer handler) without reaching the unlink.
On success the unlink is attempted once; an `OSError` there is swallowed by
`except OSError: pass` and the call still returns normally. -/
def MemoryOptimizedProcessor.stream_convert (e : ConvCalls) : ConvOutcome :=
  if !e.getFileOk then { ok := false, tempCreated := false, tempDeleted := false }
  else if !e.downloadOk then { ok := false, tempCreated := true, tempDeleted := false }
  else if !e.readOk then { ok := false, tempCreated := true, tempDeleted := false }
  else { ok := true, tempCreated := true, tempDeleted := e.unlinkOk }

/-! ## HybridAudioProcessor.process_audio (src/audio_processor.py lines 254-324)

`process_audio` analyzes metadata, consults the cache (`if cached_result:`
is a truthiness test, so an empty cached byte string does not count as a
hit), then routes to `_fast_path_process` (direct download) when
`is_optimal` and `_conversion_path_process` (stream conversion) otherwise,
and finally writes the fetched bytes back through `CacheManager.set`.  The
underlying download result is one oracle `fetch` because `stream_convert`
is a pass-through that returns the downloaded bytes unconverted (the
source's `TODO`).  The embedding counts how often each fetch path is
invoked. -/

/-- Result of one `process_audio` call: the returned bytes or the raised
`AudioProcessingError` message, the cache state afterwards, and how many
times each fetch path ran. -/
structure AcquireResult where
  data : Except String ByteData
  cache : Cache
  directCalls : Nat
  convertCalls : Nat

/-- Embeds `HybridAudioProcessor.process_audio` (lines 265-300) for one
attachment: `resolve` feeds `analyze_file_metadata`, `fetch` is the outcome
of the (single) underlying download for this attachment, `c` is the cache
state.  Any fetch exception is wrapped into
`AudioProcessingError("Failed to process audio: ...")`. -/
def HybridAudioProcessor.process_audio (resolve : Option (String × Int))
    (fetch : Except String ByteData) (file_id : String) (c : Cache) : AcquireResult :=
  let meta := FormatOptimizer.analyze_file_metadata file_id resolve
  let hit : Option ByteData :=
    match CacheManager.get c file_id with
    | some b => if b.isEmpty then none else some b
    | none => none
  match hit with
  | some b => { data := .ok b, cache := c, directCalls := 0, convertCalls := 0 }
  | none =>
    let direct : Nat := if meta.is_optimal then 1 else 0
    let convert : Nat := if meta.is_optimal then 0 else 1
    match fetch with
    | .error e =>
      { data := .error ("Failed to process audio: " ++ e), cache := c,
        directCalls := direct, convertCalls := convert }
    | .ok data =>
      { data := .ok data, cache := CacheManager.set c file_id data,
        directCalls := direct, convertCalls := convert }

/-! ## OpenAIAPIClient.transcribe_audio (src/speech_recognizer.py lines 149-243)

The retry loop runs `max_attempts = 3` attempts; the outcome of attempt `n`
(a successful response, a `RateLimitError`, an `APITimeoutError`, an
`APIError` or any other exception) is an oracle `outcome n`.  The
notification channel is modelled by `hasChannel` (both `bot` and `chat_id`
supplied) and `sendOk` (whether `bot.send_message` succeeds).  The run
records the list of sleeps actually executed and the number of API attempts
made. -/

/-- Outcome of one API attempt inside the retry loop. -/
inductive ApiOutcome where
  | ok (text : String) (language : String) (duration : ℚ)
  | rateLimit
  | timeout
  | apiError (msg : String)
  | unexpected (msg : String)

/-- A successful `verbose_json` response as extracted by the source. -/
structure ApiResult where
  text : String
  language : String
  duration : ℚ
deriving DecidableEq

/-- An `OpenAISpeechRecognitionError` value: the message and its
`user_message_sent` flag (lines 441-446, default `False`). -/
structure RecError where
  message : String
  user_message_sent : Bool
deriving DecidableEq

/-- The `UserMessageAlreadySentError` value (lines 449-453):
`user_message_sent = True`. -/
def UserMessageAlreadySentError : RecError :=
  { message := "Rate limit exceeded - user notified", user_message_sent := true }

/-- The `except Exception as send_error:` handler around the send (lines
217-220): it catches EVERY exception raised inside the `try` block —
including the `UserMessageAlreadySentError` deliberately raised right after
a successful `bot.send_message` (line 216), since that class derives from
`Exception` — and raises a plain `OpenAISpeechRecognitionError` (whose
`user_message_sent` defaults to `False`) instead. -/
def sendExceptHandler (_caught : RecError) : RecError :=
  { message := "Rate limit exceeded after retries", user_message_sent := false }

/-- The error raised when the final attempt hits the rate limit (lines
207-223).  With a channel, the `try` block either raises from a failing
`bot.send_message` or raises `UserMessageAlreadySentError` after a
successful send; either way `sendExceptHandler` replaces it.  Without a
channel the plain error is raised directly. -/
def rateLimitTerminalError (hasChannel sendOk : Bool) : RecError :=
  if hasChannel then
    let raisedInsideTry : RecError :=
      if sendOk then UserMessageAlreadySentError
      else { message := "Failed to send user message", user_message_sent := false }
    sendExceptHandler raisedInsideTry
  else { message := "Rate limit exceeded after retries", user_message_sent := false }

/-- Trace of one `transcribe_audio` call: its result, the sleeps executed
(in seconds, in order), and the number of API attempts made. -/
structure TranscribeTrace where
  result : Except RecError ApiResult
  sleeps : List ℚ
  attempts : Nat

/-- The `max_attempts = 3` constant (line 165). -/
def max_attempts : Nat := 3

/-- The retry loop body of `transcribe_audio` (lines 167-241), structurally
recursive on the remaining fuel (`max_attempts - attempt`; the fuel-0 case
embeds the unreachable final `raise` on line 243).  On a rate limit before
the last attempt the delay is `2 ** attempt if attempt > 0 else 0` and only
a positive delay is slept; on the last attempt the terminal error of
`rateLimitTerminalError` is raised.  A timeout or generic API error sleeps
a fixed 1 second between attempts and raises after the last one.  Any other
exception is raised immediately without retrying. -/
def transcribeLoop (outcome : Nat → ApiOutcome) (hasChannel sendOk : Bool) :
    Nat → Nat → TranscribeTrace
  | _, 0 =>
    { result := .error { message := "Rate limit exceeded after retries - unreachable"
                         user_message_sent := false }
      sleeps := [], attempts := 0 }
  | attempt, fuel + 1 =>
    match outcome attempt with
    | .ok t l d => { result := .ok { text := t, language := l, duration := d }
                     sleeps := [], attempts := 1 }
    | .rateLimit =>
      if attempt < max_attempts - 1 then
        let delay : ℚ := if 0 < attempt then (2 : ℚ) ^ attempt else 0
        let rest := transcribeLoop outcome hasChannel sendOk (attempt + 1) fuel
        { result := rest.result
          sleeps := (if 0 < delay then [delay] else []) ++ rest.sleeps
          attempts := rest.attempts + 1 }
      else
        { result := .error (rateLimitTerminalError hasChannel sendOk)
          sleeps := [], attempts := 1 }
    | .timeout =>
      if attempt < max_attempts - 1 then
        let rest := transcribeLoop outcome hasChannel sendOk (attempt + 1) fuel
        { result := rest.result, sleeps := 1 :: rest.sleeps
          attempts := rest.attempts + 1 }
      else
        { result := .error { message := "API timeout after 3 attempts"
                             user_message_sent := false }
          sleeps := [], attempts := 1 }
    | .apiError msg =>
      if attempt < max_attempts - 1 then
        let rest := transcribeLoop outcome hasChannel sendOk (attempt + 1) fuel
        { result := rest.result, sleeps := 1 :: rest.sleeps
          attempts := rest.attempts + 1 }
      else
        { result := .error { message := "API error after 3 attempts: " ++ msg
                             user_message_sent := false }
          sleeps := [], attempts := 1 }
    | .unexpected msg =>
      { result := .error { message := "Unexpected error: " ++ msg
                           user_message_sent := false }
        sleeps := [], attempts := 1 }

/-- Embeds `OpenAIAPIClient.transcribe_audio` (lines 156-243): the retry
loop started at attempt 0 with full fuel. -/
def OpenAIAPIClient.transcribe_audio (outcome : Nat → ApiOutcome)
    (hasChannel sendOk : Bool) : TranscribeTrace :=
  transcribeLoop outcome hasChannel sendOk 0 max_attempts

/-! ## HybridSpeechRecognizer.transcribe and SpeechPipeline
(src/speech_recognizer.py lines 312-438, src/speech_pipeline.py) -/

/-- A `TranscriptionResult` as built by `_post_process_result` (lines
413-438): stripped text, detected language, confidence fixed at 1.0.  The
`processing_time` field is wall-clock time and is omitted. -/
structure TranscriptionResult where
  text : String
  language : String
  confidence : ℚ
deriving DecidableEq

/-- Embeds the error/result shape of `HybridSpeechRecognizer.transcribe`
(lines 338-392): a successful API result is post-processed into a
`TranscriptionResult`; ANY exception — including an
`OpenAISpeechRecognitionError` that already carries `user_message_sent =
True` — is caught by the blanket `except Exception` (line 390) and
re-raised as a fresh `OpenAISpeechRecognitionError` whose flag defaults to
`False`. -/
def HybridSpeechRecognizer.transcribe (outcome : Nat → ApiOutcome)
    (hasChannel sendOk : Bool) : Except RecError TranscriptionResult :=
  match (OpenAIAPIClient.transcribe_audio outcome hasChannel sendOk).result with
  | .ok r => .ok { text := r.text.trim, language := r.language, confidence := 1 }
  | .error e =>
    .error { message := "Speech recognition failed: " ++ e.message
             user_message_sent := false }

/-- A `SpeechPipelineError` value (src/speech_pipeline.py lines 24-29): the
message and its `user_notified` flag (default `False`). -/
structure SpeechPipelineError where
  message : String
  user_notified : Bool
deriving DecidableEq

/-- The pipeline metrics dict (src/speech_pipeline.py lines 43-50). -/
structure PipelineMetrics where
  total_processed : Nat
  success_count : Nat
  error_count : Nat
  total_time : ℚ
  audio_processing_time : ℚ
  speech_recognition_time : ℚ
deriving DecidableEq

/-- The all-zero initial metrics (lines 43-50). -/
def PipelineMetrics.init : PipelineMetrics :=
  { total_processed := 0, success_count := 0, error_count := 0
    total_time := 0, audio_processing_time := 0, speech_recognition_time := 0 }

/-- Embeds `SpeechPipeline._record_success` (lines 187-194). -/
def SpeechPipeline._record_success (m : PipelineMetrics)
    (total audio_t speech_t : ℚ) : PipelineMetrics :=
  { m with
    total_processed := m.total_processed + 1
    success_count := m.success_count + 1
    total_time := m.total_time + total
    audio_processing_time := m.audio_processing_time + audio_t
    speech_recognition_time := m.speech_recognition_time + speech_t }

/-- Embeds `SpeechPipeline._record_error` (lines 196-202). -/
def SpeechPipeline._record_error (m : PipelineMetrics) : PipelineMetrics :=
  { m with
    total_processed := m.total_processed + 1
    error_count := m.error_count + 1 }

/-- Embeds `SpeechPipeline.process_voice_message` (lines 52-141) over the
outcomes of its two phases: `audioR` is what
`HybridAudioProcessor.process_audio` produced for the file (an
`AudioProcessingError` message or bytes) and `speechR` what
`HybridSpeechRecognizer.transcribe` produced for those bytes.  An audio
failure records an error and raises a `SpeechPipelineError` with the
default flag; a recognition failure records an error, then checks
`e.user_message_sent` to decide between the silent
`user_notified=True` error and a regular one; success records the timings
and returns the text.  The wall-clock arguments `total/audio_t/speech_t`
are the measured durations. -/
def SpeechPipeline.process_voice_message (m : PipelineMetrics)
    (audioR : Except String ByteData)
    (speechR : Except RecError TranscriptionResult)
    (total audio_t speech_t : ℚ) :
    Except SpeechPipelineError String × PipelineMetrics :=
  match audioR with
  | .error e =>
    (.error { message := "Audio processing failed: " ++ e, user_notified := false },
     SpeechPipeline._record_error m)
  | .ok _ =>
    match speechR with
    | .error e =>
      if e.user_message_sent then
        (.error { message := "Speech recognition failed - user notified"
                  user_notified := true },
         SpeechPipeline._record_error m)
      else
        (.error { message := "Speech recognition failed: " ++ e.message
                  user_notified := false },
         SpeechPipeline._record_error m)
    | .ok r => (.ok r.text, SpeechPipeline._record_success m total audio_t speech_t)

/-! ## Claim theorems -/

/-- C1 (code bug evidence): when every attempt is rate-limited, a
notification channel is supplied and the send succeeds, the terminal error
raised by `transcribe_audio` still carries `user_message_sent = false` —
the `UserMessageAlreadySentError` raised right after the successful send is
caught by its own `except Exception` handler and replaced — and the
`SpeechPipelineError` that `process_voice_message` then raises carries
`user_notified = false`, contradicting the claim, the source's own comment
("Raise special exception indicating user was already notified") and the
dead `user_message_sent` check in the pipeline. -/
theorem C1_notified_flag_dropped :
    (OpenAIAPIClient.transcribe_audio (fun _ => ApiOutcome.rateLimit) true true).result =
      Except.error { message := "Rate limit exceeded after retries"
                     user_message_sent := false } ∧
    (SpeechPipeline.process_voice_message PipelineMetrics.init (Except.ok [1])
        (HybridSpeechRecognizer.transcribe (fun _ => ApiOutcome.rateLimit) true true)
        0 0 0).1 =
      Except.error { message := "Speech recognition failed: Speech recognition failed: Rate limit exceeded after retries",
                     user_notified := false } := by
  exact ⟨rfl, rfl⟩

/-- C2 counterexample: under a rate limit on all 3 attempts the client
sleeps 0 s then 2 s — 2 seconds in total, not the approximately
`0 + 2 + 4 = 6` seconds the claim states (the 4-second backoff would only
precede a 4th attempt, which never happens). -/
theorem C2_total_sleep_is_two_not_six :
    (OpenAIAPIClient.transcribe_audio (fun _ => ApiOutcome.rateLimit) false false).sleeps.sum
        = 2 ∧
    (OpenAIAPIClient.transcribe_audio (fun _ => ApiOutcome.rateLimit) false false).sleeps.sum
        ≠ 6 := by
  constructor
  · norm_num [OpenAIAPIClient.transcribe_audio, max_attempts, transcribeLoop]
  · norm_num [OpenAIAPIClient.transcribe_audio, max_attempts, transcribeLoop]

/-- C2 amended: on a rate-limit response on all 3 attempts the client makes
exactly 3 API attempts, sleeps 0 s before the 2nd attempt and 2 s before
the 3rd — `0 + 2 = 2` seconds of total sleep (the 4 s value of the backoff
formula is never slept because the 3rd attempt is the last) — and then
raises the terminal error; on a timeout or generic API error on all 3
attempts the inter-attempt delay is a fixed 1 second (`[1, 1]`). -/
theorem C2_retry_backoff_schedule (hasChannel sendOk : Bool) (msg : String)
    (f g k : Nat → ApiOutcome)
    (hf : ∀ n, f n = ApiOutcome.rateLimit)
    (hg : ∀ n, g n = ApiOutcome.timeout)
    (hk : ∀ n, k n = ApiOutcome.apiError msg) :
    (OpenAIAPIClient.transcribe_audio f hasChannel sendOk).attempts = 3 ∧
    (OpenAIAPIClient.transcribe_audio f hasChannel sendOk).sleeps = [2] ∧
    (OpenAIAPIClient.transcribe_audio f hasChannel sendOk).sleeps.sum = 2 ∧
    (OpenAIAPIClient.transcribe_audio f hasChannel sendOk).result =
      Except.error (rateLimitTerminalError hasChannel sendOk) ∧
    (OpenAIAPIClient.transcribe_audio g hasChannel sendOk).sleeps = [1, 1] ∧
    (OpenAIAPIClient.transcribe_audio g hasChannel sendOk).attempts = 3 ∧
    (OpenAIAPIClient.transcribe_audio k hasChannel sendOk).sleeps = [1, 1] := by
  have hf' : f = fun _ => ApiOutcome.rateLimit := funext hf
  have hg' : g = fun _ => ApiOutcome.timeout := funext hg
  have hk' : k = fun _ => ApiOutcome.apiError msg := funext hk
  subst hf' hg' hk'
  cases hasChannel <;> cases sendOk <;>
    refine ⟨rfl, rfl, ?_, rfl, rfl, rfl, rfl⟩ <;>
    norm_num [OpenAIAPIClient.transcribe_audio, max_attempts, transcribeLoop]

/-- Witness for C2 at concrete inputs: the constant rate-limit, timeout and
API-error outcome functions with a channel supplied and sends succeeding. -/
theorem C2_retry_backoff_schedule_witness :
    (OpenAIAPIClient.transcribe_audio (fun _ => ApiOutcome.rateLimit) true true).attempts
        = 3 ∧
    (OpenAIAPIClient.transcribe_audio (fun _ => ApiOutcome.rateLimit) true true).sleeps
        = [2] ∧
    (OpenAIAPIClient.transcribe_audio (fun _ => ApiOutcome.rateLimit) true true).sleeps.sum
        = 2 ∧
    (OpenAIAPIClient.transcribe_audio (fun _ => ApiOutcome.rateLimit) true true).result =
      Except.error (rateLimitTerminalError true true) ∧
    (OpenAIAPIClient.transcribe_audio (fun _ => ApiOutcome.timeout) true true).sleeps
        = [1, 1] ∧
    (OpenAIAPIClient.transcribe_audio (fun _ => ApiOutcome.timeout) true true).attempts
        = 3 ∧
    (OpenAIAPIClient.transcribe_audio (fun _ => ApiOutcome.apiError "boom") true true).sleeps
        = [1, 1] :=
  C2_retry_backoff_schedule true true "boom" _ _ _
    (fun _ => rfl) (fun _ => rfl) (fun _ => rfl)

/-- Writing a key and reading it back through the association list. -/
theorem assocFind_assocInsert {α : Type} (k : String) (v : α)
    (l : List (String × α)) : assocFind k (assocInsert k v l) = some v := by
  induction l with
  | nil => simp [assocInsert, assocFind]
  | cons p rest ih =>
    obtain ⟨k', v'⟩ := p
    by_cases h : k' = k
    · simp [assocInsert, h, assocFind]
    · simp [assocInsert, h, assocFind, ih]

/-- A non-empty payload written through `CacheManager.set` is read back by
`CacheManager.get` whenever the write landed: either the Redis tier took it
or the in-process tier had room. -/
theorem CacheManager.get_after_set (c : Cache) (fid : String) (data : ByteData)
    (hdata : data ≠ [])
    (hroom : c.redisWritable = true ∨ c.memStore.length < 10) :
    CacheManager.get (CacheManager.set c fid data) fid = some data := by
  have hempty : data.isEmpty = false := by
    cases hd : data.isEmpty
    · rfl
    · exact absurd (List.isEmpty_iff.mp hd) hdata
  obtain ⟨redis, mem⟩ := c
  cases redis with
  | none =>
    have hmem : mem.length < 10 := by
      rcases hroom with h | h
      · simp [Cache.redisWritable] at h
      · exact h
    simp [CacheManager.set, CacheManager.get, hmem, assocFind_assocInsert]
  | some r =>
    cases hr : r.failing with
    | false =>
      simp [CacheManager.set, CacheManager.get, hr, assocFind_assocInsert, hempty]
    | true =>
      have hmem : mem.length < 10 := by
        rcases hroom with h | h
        · simp [Cache.redisWritable, hr] at h
        · exact h
      simp [CacheManager.set, CacheManager.get, hr, hmem, assocFind_assocInsert]

/-- C5 amended: for an uncached attachment, a native extension (ogg/oga)
takes the fast path (one direct download, zero conversion calls) and a
foreign extension takes the slow path (one conversion call, zero direct
downloads); after a successful slow-path acquisition of a NON-EMPTY payload
the cache key is populated — `ContentCache.get` then returns the payload —
PROVIDED the primary store accepts the write or the in-process fallback
holds fewer than 10 entries. -/
theorem C5_path_routing_and_cache_population (ext : String) (size : Int)
    (fid : String) (c : Cache) (data : ByteData)
    (hsz : size ≠ 0) (hmiss : CacheManager.get c fid = none) :
    ((ext = "ogg" ∨ ext = "oga") →
      (HybridAudioProcessor.process_audio (some (ext, size)) (.ok data) fid c).directCalls
          = 1 ∧
      (HybridAudioProcessor.process_audio (some (ext, size)) (.ok data) fid c).convertCalls
          = 0) ∧
    ((FormatOptimizer._detect_format_from_path ext).optimal = false →
      (HybridAudioProcessor.process_audio (some (ext, size)) (.ok data) fid c).directCalls
          = 0 ∧
      (HybridAudioProcessor.process_audio (some (ext, size)) (.ok data) fid c).convertCalls
          = 1 ∧
      (data ≠ [] → (c.redisWritable = true ∨ c.memStore.length < 10) →
        CacheManager.get
          (HybridAudioProcessor.process_audio (some (ext, size)) (.ok data) fid c).cache
          fid = some data)) := by
  have hopt : (FormatOptimizer.analyze_file_metadata fid (some (ext, size))).is_optimal =
      (FormatOptimizer._detect_format_from_path ext).optimal := by
    simp [FormatOptimizer.analyze_file_metadata, hsz]
  constructor
  · rintro (h | h) <;> subst h <;>
      constructor <;>
      simp [HybridAudioProcessor.process_audio, hmiss, hopt,
        FormatOptimizer._detect_format_from_path, FormatOptimizer.TELEGRAM_NATIVE_FORMATS,
        assocFind]
  · intro h
    refine ⟨?_, ?_, fun hdata hroom => ?_⟩
    · simp [HybridAudioProcessor.process_audio, hmiss, hopt, h]
    · simp [HybridAudioProcessor.process_audio, hmiss, hopt, h]
    · have : (HybridAudioProcessor.process_audio (some (ext, size)) (.ok data) fid c).cache
          = CacheManager.set c fid data := by
        simp [HybridAudioProcessor.process_audio, hmiss]
      rw [this]
      exact CacheManager.get_after_set c fid data hdata hroom

/-- Witness for C5 at concrete inputs: attachment "f" of 1000 bytes on an
empty no-Redis cache — extension "ogg" routes to the fast path, extension
"mp3" routes to the slow path (payload `[7]`) and populates the cache. -/
theorem C5_path_routing_and_cache_population_witness :
    ((HybridAudioProcessor.process_audio (some ("ogg", 1000)) (.ok [7]) "f"
        { redis := none, memStore := [] }).directCalls = 1 ∧
     (HybridAudioProcessor.process_audio (some ("ogg", 1000)) (.ok [7]) "f"
        { redis := none, memStore := [] }).convertCalls = 0) ∧
    ((HybridAudioProcessor.process_audio (some ("mp3", 1000)) (.ok [7]) "f"
        { redis := none, memStore := [] }).directCalls = 0 ∧
     (HybridAudioProcessor.process_audio (some ("mp3", 1000)) (.ok [7]) "f"
        { redis := none, memStore := [] }).convertCalls = 1 ∧
     CacheManager.get
        (HybridAudioProcessor.process_audio (some ("mp3", 1000)) (.ok [7]) "f"
          { redis := none, memStore := [] }).cache "f" = some [7]) :=
  ⟨(C5_path_routing_and_cache_population "ogg" 1000 "f"
      { redis := none, memStore := [] } [7] (by norm_num) (by decide)).1 (Or.inl rfl),
   ⟨((C5_path_routing_and_cache_population "mp3" 1000 "f"
      { redis := none, memStore := [] } [7] (by norm_num) (by decide)).2 (by decide)).1,
    ((C5_path_routing_and_cache_population "mp3" 1000 "f"
      { redis := none, memStore := [] } [7] (by norm_num) (by decide)).2 (by decide)).2.1,
    ((C5_path_routing_and_cache_population "mp3" 1000 "f"
      { redis := none, memStore := [] } [7] (by norm_num) (by decide)).2 (by decide)).2.2
      (by decide) (Or.inr (by decide))⟩⟩

/-- A no-Redis cache whose in-process tier already holds 10 entries for
other attachment ids, so `CacheManager.set` refuses new keys. -/
def cacheFullTen : Cache :=
  { redis := none
    memStore := [("k0", [1]), ("k1", [1]), ("k2", [1]), ("k3", [1]), ("k4", [1]),
                 ("k5", [1]), ("k6", [1]), ("k7", [1]), ("k8", [1]), ("k9", [1])] }

/-- C5 counterexample: the claim fails as stated.  (a) With no primary
store and the bounded in-process tier already holding 10 entries, a
successful slow-path acquisition of attachment "f" leaves `ContentCache.get`
returning absent, not non-empty.  (b) With room in the cache but an empty
downloaded payload, the key is populated with `b''` and `ContentCache.get`
returns the empty byte string, again not non-empty. -/
theorem C5_cache_population_counterexample :
    ((HybridAudioProcessor.process_audio (some ("mp3", 1000)) (.ok [7]) "f"
        cacheFullTen).convertCalls = 1 ∧
     CacheManager.get
        (HybridAudioProcessor.process_audio (some ("mp3", 1000)) (.ok [7]) "f"
          cacheFullTen).cache "f" = none) ∧
    ((HybridAudioProcessor.process_audio (some ("mp3", 1000)) (.ok []) "f"
        { redis := none, memStore := [] }).convertCalls = 1 ∧
     CacheManager.get
        (HybridAudioProcessor.process_audio (some ("mp3", 1000)) (.ok []) "f"
          { redis := none, memStore := [] }).cache "f" = some []) := by
  refine ⟨⟨?_, ?_⟩, ?_, ?_⟩ <;> rfl

/-- C6 counterexample: the claim fails as stated for an empty payload.  The
first `acquire` of attachment "f" fetches `b''` and populates the cache key
(`memory_cache = {"f": b''}`), yet the second call — because
`if cached_result:` treats the cached empty byte string as a miss — invokes
the fetcher again instead of returning the cached payload. -/
theorem C6_empty_payload_counterexample :
    (HybridAudioProcessor.process_audio (some ("mp3", 1000)) (.ok []) "f"
        { redis := none, memStore := [] }).cache.memStore = [("f", [])] ∧
    (HybridAudioProcessor.process_audio (some ("mp3", 1000)) (.ok []) "f"
        (HybridAudioProcessor.process_audio (some ("mp3", 1000)) (.ok []) "f"
          { redis := none, memStore := [] }).cache).convertCalls = 1 := by
  exact ⟨rfl, rfl⟩

/-- C6 amended: two sequential `acquire` calls for the same id, where the
first call misses and populates the cache with a NON-EMPTY payload, return
byte-identical payloads, and the second call invokes neither the direct
download nor the conversion fetcher. -/
theorem C6_second_acquire_idempotent (resolve : Option (String × Int))
    (fid : String) (data : ByteData) (c : Cache)
    (hmiss : CacheManager.get c fid = none)
    (hdata : data ≠ [])
    (hpop : CacheManager.get
        (HybridAudioProcessor.process_audio resolve (.ok data) fid c).cache fid
      = some data) :
    (HybridAudioProcessor.process_audio resolve (.ok data) fid c).data = .ok data ∧
    (HybridAudioProcessor.process_audio resolve (.ok data) fid
        (HybridAudioProcessor.process_audio resolve (.ok data) fid c).cache).data
      = .ok data ∧
    (HybridAudioProcessor.process_audio resolve (.ok data) fid
        (HybridAudioProcessor.process_audio resolve (.ok data) fid c).cache).directCalls
      = 0 ∧
    (HybridAudioProcessor.process_audio resolve (.ok data) fid
        (HybridAudioProcessor.process_audio resolve (.ok data) fid c).cache).convertCalls
      = 0 := by
  have hempty : data.isEmpty = false := by
    cases hd : data.isEmpty
    · rfl
    · exact absurd (List.isEmpty_iff.mp hd) hdata
  have hpop' : CacheManager.get (CacheManager.set c fid data) fid = some data := by
    simpa [HybridAudioProcessor.process_audio, hmiss] using hpop
  refine ⟨?_, ?_, ?_, ?_⟩ <;>
    simp [HybridAudioProcessor.process_audio, hmiss, hpop', hempty, hdata]

/-- Witness for C6 at concrete inputs: attachment "f" with payload `[7]` on
an empty no-Redis cache; the second call returns the identical bytes with
zero fetcher invocations. -/
theorem C6_second_acquire_idempotent_witness :
    (HybridAudioProcessor.process_audio (some ("mp3", 1000)) (.ok [7]) "f"
        { redis := none, memStore := [] }).data = .ok [7] ∧
    (HybridAudioProcessor.process_audio (some ("mp3", 1000)) (.ok [7]) "f"
        (HybridAudioProcessor.process_audio (some ("mp3", 1000)) (.ok [7]) "f"
          { redis := none, memStore := [] }).cache).data = .ok [7] ∧
    (HybridAudioProcessor.process_audio (some ("mp3", 1000)) (.ok [7]) "f"
        (HybridAudioProcessor.process_audio (some ("mp3", 1000)) (.ok [7]) "f"
          { redis := none, memStore := [] }).cache).directCalls = 0 ∧
    (HybridAudioProcessor.process_audio (some ("mp3", 1000)) (.ok [7]) "f"
        (HybridAudioProcessor.process_audio (some ("mp3", 1000)) (.ok [7]) "f"
          { redis := none, memStore := [] }).cache).convertCalls = 0 :=
  C6_second_acquire_idempotent (some ("mp3", 1000)) "f" [7]
    { redis := none, memStore := [] } (by decide) (by decide) (by decide)

/-- C7: metadata-inspection and cache errors never propagate.  A metadata
lookup failure makes `analyze_file_metadata` RETURN the fallback value
(size 0, format `'unknown'`, no codec, not optimal) instead of raising; a
failing Redis client makes `CacheManager.get` fall through to the
in-process tier and `CacheManager.set` fall through to the bounded
in-process write; and `process_audio` succeeds whenever the fetch does, for
EVERY cache state — cache unavailability never makes acquisition fail. -/
theorem C7_inspection_and_cache_fail_soft (fid : String) (r : RedisTier)
    (hfail : r.failing = true) (mem : List (String × ByteData)) (data : ByteData)
    (resolve : Option (String × Int)) (payload : ByteData) (c : Cache) :
    FormatOptimizer.analyze_file_metadata fid none =
      { file_id := fid, size := 0, format := "unknown", codec := none,
        is_optimal := false, estimated_duration := 0 } ∧
    CacheManager.get { redis := some r, memStore := mem } fid = assocFind fid mem ∧
    CacheManager.set { redis := some r, memStore := mem } fid data =
      (if mem.length < 10 then
        { redis := some r, memStore := assocInsert fid data mem }
      else { redis := some r, memStore := mem }) ∧
    (∃ b, (HybridAudioProcessor.process_audio resolve (.ok payload) fid c).data
        = Except.ok b) := by
  refine ⟨rfl, ?_, ?_, ?_⟩
  · simp [CacheManager.get, hfail]
  · by_cases hlen : mem.length < 10 <;> simp [CacheManager.set, hfail, hlen]
  · cases hget : CacheManager.get c fid with
    | none => exact ⟨payload, by simp [HybridAudioProcessor.process_audio, hget]⟩
    | some b =>
      cases hb : b.isEmpty with
      | true =>
        exact ⟨payload, by simp [HybridAudioProcessor.process_audio, hget,
          List.isEmpty_iff.mp hb]⟩
      | false =>
        have hb' : b ≠ [] := by
          cases b with
          | nil => exact absurd hb (by simp)
          | cons x xs => simp
        exact ⟨b, by simp [HybridAudioProcessor.process_audio, hget, hb']⟩

/-- Witness for C7 at concrete inputs: a failing Redis client over cache
state `{"g": [1]}` and a lookup failure for attachment "f". -/
theorem C7_inspection_and_cache_fail_soft_witness :
    FormatOptimizer.analyze_file_metadata "f" none =
      { file_id := "f", size := 0, format := "unknown", codec := none,
        is_optimal := false, estimated_duration := 0 } ∧
    CacheManager.get { redis := some ⟨true, [("f", [9])]⟩, memStore := [("g", [1])] } "f"
      = assocFind "f" [("g", [1])] ∧
    CacheManager.set { redis := some ⟨true, [("f", [9])]⟩, memStore := [("g", [1])] } "f" [2]
      = (if [("g", [1])].length < 10 then
          { redis := some ⟨true, [("f", [9])]⟩, memStore := assocInsert "f" [2] [("g", [1])] }
        else { redis := some ⟨true, [("f", [9])]⟩, memStore := [("g", [1])] }) ∧
    (∃ b, (HybridAudioProcessor.process_audio none (.ok [3]) "f"
        { redis := some ⟨true, []⟩, memStore := [] }).data = Except.ok b) :=
  C7_inspection_and_cache_fail_soft "f" ⟨true, [("f", [9])]⟩ rfl [("g", [1])] [2]
    none [3] { redis := some ⟨true, []⟩, memStore := [] }

/-- C8 counterexample: a zero-byte attachment gets an estimated duration of
0.0, outside the claimed clamp interval `[0.1, 600]` — the source returns
0.0 at once for `file_size <= 0` without applying the formula or the
clamp. -/
theorem C8_zero_size_counterexample :
    FormatOptimizer._estimate_duration 0 "ogg" = 0 ∧
    FormatOptimizer._estimate_duration 0 "ogg" ≠
      max (1/10) (min ((0 : ℚ) / 8192) 600) := by
  constructor
  · rfl
  · norm_num [FormatOptimizer._estimate_duration]

/-- C8 amended: for every attachment with POSITIVE byte size the estimated
duration is the size divided by the format's assumed bitrate in bytes per
second (8192 B/s = 64 kbps for "ogg", 16384 B/s = 128 kbps for "mp3",
12288 B/s = 96 kbps for formats outside the table), clamped to
`[0.1, 600]`; non-positive sizes return 0.0 unclamped.  In particular a
1,048,576-byte "ogg" attachment yields exactly 128 seconds. -/
theorem C8_duration_estimate_formula (size : Int) (fmt : String) (hsz : 0 < size) :
    FormatOptimizer._estimate_duration size "ogg" =
      max (1/10) (min ((size : ℚ) / 8192) 600) ∧
    FormatOptimizer._estimate_duration size "mp3" =
      max (1/10) (min ((size : ℚ) / 16384) 600) ∧
    (fmt ≠ "ogg" → fmt ≠ "mp3" → fmt ≠ "mp4" → fmt ≠ "wav" →
      FormatOptimizer._estimate_duration size fmt =
        max (1/10) (min ((size : ℚ) / 12288) 600)) ∧
    FormatOptimizer._estimate_duration 1048576 "ogg" = 128 := by
  have h : ¬ size ≤ 0 := not_le.mpr hsz
  refine ⟨?_, ?_, fun h1 h2 h3 h4 => ?_, ?_⟩
  · simp only [FormatOptimizer._estimate_duration, if_neg h]
    norm_num
  · have e1 : ¬ ("mp3" : String) = "ogg" := by decide
    simp only [FormatOptimizer._estimate_duration, if_neg h, if_neg e1, if_pos rfl]
    norm_num
  · simp only [FormatOptimizer._estimate_duration, if_neg h, if_neg h1, if_neg h2,
      if_neg h3, if_neg h4]
    norm_num
  · norm_num [FormatOptimizer._estimate_duration]

/-- Witness for C8 at concrete inputs: a 1000-byte attachment in "ogg" and
in an unknown format "xyz", and the 1 MB "ogg" case. -/
theorem C8_duration_estimate_formula_witness :
    FormatOptimizer._estimate_duration 1000 "ogg" =
      max (1/10) (min ((1000 : ℚ) / 8192) 600) ∧
    FormatOptimizer._estimate_duration 1000 "xyz" =
      max (1/10) (min ((1000 : ℚ) / 12288) 600) ∧
    FormatOptimizer._estimate_duration 1048576 "ogg" = 128 :=
  ⟨(C8_duration_estimate_formula 1000 "xyz" (by norm_num)).1,
   (C8_duration_estimate_formula 1000 "xyz" (by norm_num)).2.2.1
     (by decide) (by decide) (by decide) (by decide),
   (C8_duration_estimate_formula 1000 "xyz" (by norm_num)).2.2.2⟩

/-- C9 counterexample: when the download into the temporary file fails, the
exception propagates out of `stream_convert` with the temporary file
created but NOT deleted — there is no `finally`, so the unlink on the
success path is never reached and the file is leaked. -/
theorem C9_temp_file_leak_counterexample :
    (MemoryOptimizedProcessor.stream_convert
        { getFileOk := true, downloadOk := false, readOk := true, unlinkOk := true }).tempCreated
      = true ∧
    (MemoryOptimizedProcessor.stream_convert
        { getFileOk := true, downloadOk := false, readOk := true, unlinkOk := true }).tempDeleted
      = false ∧
    (MemoryOptimizedProcessor.stream_convert
        { getFileOk := true, downloadOk := false, readOk := true, unlinkOk := true }).ok
      = false := by
  exact ⟨rfl, rfl, rfl⟩

/-- C9 amended: `stream_convert` creates the temporary file exactly when the
metadata lookup succeeds, and deletes it ONLY on the success path (download
and read both succeed) and only when the unlink itself succeeds; an error
exit after the file is created leaves it undeleted, and a failed unlink is
silently swallowed while the call still returns normally. -/
theorem C9_temp_file_deleted_only_on_success (e : ConvCalls) :
    (MemoryOptimizedProcessor.stream_convert e).tempCreated = e.getFileOk ∧
    (MemoryOptimizedProcessor.stream_convert e).tempDeleted =
      (e.getFileOk && e.downloadOk && e.readOk && e.unlinkOk) ∧
    (MemoryOptimizedProcessor.stream_convert e).ok =
      (e.getFileOk && e.downloadOk && e.readOk) := by
  obtain ⟨g, d, r, u⟩ := e
  cases g <;> cases d <;> cases r <;> cases u <;> exact ⟨rfl, rfl, rfl⟩

/-- C10: every `process_voice_message` call increments `total_processed` by
exactly one — `success_count` on the success path, `error_count` on every
failure path — and preserves the invariant
`total_processed = success_count + error_count`. -/
theorem C10_metrics_balanced (m : PipelineMetrics) (audioR : Except String ByteData)
    (speechR : Except RecError TranscriptionResult) (total audio_t speech_t : ℚ)
    (hinv : m.total_processed = m.success_count + m.error_count) :
    (SpeechPipeline.process_voice_message m audioR speechR total audio_t speech_t).2.total_processed
        = m.total_processed + 1 ∧
    (SpeechPipeline.process_voice_message m audioR speechR total audio_t speech_t).2.total_processed
        = (SpeechPipeline.process_voice_message m audioR speechR total audio_t speech_t).2.success_count
          + (SpeechPipeline.process_voice_message m audioR speechR total audio_t speech_t).2.error_count ∧
    (∀ t, (SpeechPipeline.process_voice_message m audioR speechR total audio_t speech_t).1
        = Except.ok t →
      (SpeechPipeline.process_voice_message m audioR speechR total audio_t speech_t).2.success_count
          = m.success_count + 1 ∧
      (SpeechPipeline.process_voice_message m audioR speechR total audio_t speech_t).2.error_count
          = m.error_count) ∧
    (∀ pe, (SpeechPipeline.process_voice_message m audioR speechR total audio_t speech_t).1
        = Except.error pe →
      (SpeechPipeline.process_voice_message m audioR speechR total audio_t speech_t).2.error_count
          = m.error_count + 1 ∧
      (SpeechPipeline.process_voice_message m audioR speechR total audio_t speech_t).2.success_count
          = m.success_count) := by
  cases audioR with
  | error e =>
    simp [SpeechPipeline.process_voice_message, SpeechPipeline._record_error, hinv]
    omega
  | ok b =>
    cases speechR with
    | error e =>
      by_cases he : e.user_message_sent <;>
        simp [SpeechPipeline.process_voice_message, SpeechPipeline._record_error, he,
          hinv] <;>
        omega
    | ok r =>
      simp [SpeechPipeline.process_voice_message, SpeechPipeline._record_success, hinv]
      omega

/-- Witness for C10 at concrete inputs: a successful run and a failing run
starting from the all-zero metrics. -/
theorem C10_metrics_balanced_witness :
    (SpeechPipeline.process_voice_message PipelineMetrics.init (Except.ok [1])
        (Except.ok { text := "hi", language := "en", confidence := 1 }) 0 0 0).2.total_processed
      = PipelineMetrics.init.total_processed + 1 ∧
    (SpeechPipeline.process_voice_message PipelineMetrics.init
        (Except.error "boom")
        (Except.ok { text := "hi", language := "en", confidence := 1 }) 0 0 0).2.total_processed
      = PipelineMetrics.init.total_processed + 1 :=
  ⟨(C10_metrics_balanced PipelineMetrics.init (Except.ok [1])
      (Except.ok { text := "hi", language := "en", confidence := 1 }) 0 0 0 rfl).1,
   (C10_metrics_balanced PipelineMetrics.init (Except.error "boom")
      (Except.ok { text := "hi", language := "en", confidence := 1 }) 0 0 0 rfl).1⟩
